import Mathlib

/-!
Shallow embedding of `lunavl/sdk/estimator_collections.py`: the
`FaceEstimator` enumeration and the `FaceEstimatorsCollection` lazy
registry of estimator handles produced by an external face engine.

The external engine is modelled as an identity (`VLFaceEngine.id`)
together with an instrumented call trace: every factory invocation
appends a `Handle` recording the engine id, the factory method name and
a fresh call index, so call counts and handle provenance are observable
in theorems.  Raised `ValueError`s are modelled by the `PyResult`
outcome returned next to the post-call state, so that partial mutation
before an exception is visible.
-/

/-- The nine-member estimator tag enumeration (`class FaceEstimator(Enum)`,
source lines 18-40). -/
inductive FaceEstimator where
  | HeadPose
  | Eye
  | Emotions
  | BasicAttributes
  | GazeDirection
  | MouthState
  | WarpQuality
  | AGS
  | Descriptor
deriving DecidableEq, Repr, Fintype

/-- Python `FaceEstimator.<member>.name` for each member. -/
def FaceEstimator.name : FaceEstimator → String
  | .HeadPose => "HeadPose"
  | .Eye => "Eye"
  | .Emotions => "Emotions"
  | .BasicAttributes => "BasicAttributes"
  | .GazeDirection => "GazeDirection"
  | .MouthState => "MouthState"
  | .WarpQuality => "WarpQuality"
  | .AGS => "AGS"
  | .Descriptor => "Descriptor"

/-- Iteration order of `for estimator in FaceEstimator`: Python enums
iterate in definition order (values 1..9, source lines 24-40). -/
def faceEstimatorMembers : List FaceEstimator :=
  [.HeadPose, .Eye, .Emotions, .BasicAttributes, .GazeDirection, .MouthState,
   .WarpQuality, .AGS, .Descriptor]

/-- A value passed where the source annotates `FaceEstimator`: either a
genuine member, or a value outside the closed enumeration carrying a
`name` attribute.  Python enum equality (`==`) is identity, so a value
outside the enumeration never compares equal to a member. -/
inductive TagArg where
  | tag (t : FaceEstimator)
  | foreign (nm : String)
deriving DecidableEq, Repr

/-- The `.name` attribute of a tag argument. -/
def TagArg.name : TagArg → String
  | .tag t => t.name
  | .foreign nm => nm

/-- Python `str.lower()` (only ASCII names occur here), computed on the
character list so it reduces structurally. -/
def pyLower (s : String) : String :=
  String.mk (s.toList.map Char.toLower)

/-- Python slice `s[1 : -len("Estimator")]`, i.e. `s[1:-9]`: characters at
indices `1 ≤ i < len s - 9` (empty when the string is too short). -/
def sliceEstimatorName (s : String) : String :=
  String.mk ((s.toList.drop 1).take (s.toList.length - 10))

instance {ε α : Type} [DecidableEq ε] [DecidableEq α] : DecidableEq (Except ε α) := fun a b =>
  match a, b with
  | .error e, .error f => decidable_of_iff (e = f) (by simp)
  | .ok x, .ok y => decidable_of_iff (x = y) (by simp)
  | .error _, .ok _ => isFalse (by simp)
  | .ok _, .error _ => isFalse (by simp)

/-- The external engine (`VLFaceEngine`), opaque apart from an identity
that lets theorems tell two engines apart. -/
structure VLFaceEngine where
  id : Nat
deriving DecidableEq, Repr

/-- An opaque handle returned by one engine factory call: which engine
produced it, by which factory method, and a globally fresh call index. -/
structure Handle where
  engineId : Nat
  opName : String
  callIdx : Nat
deriving DecidableEq, Repr

/-- Instrumentation: the list of all handles ever produced by factory
calls, in call order. -/
abbrev Trace := List Handle

/-- One engine factory invocation: returns a fresh handle and the
extended trace. -/
def callFactory (tr : Trace) (eng : VLFaceEngine) (op : String) : Handle × Trace :=
  let h : Handle := ⟨eng.id, op, tr.length⟩
  (h, tr ++ [h])

/-- The state held by a `FaceEstimatorsCollection` instance: one optional
cached handle per estimator tag, the engine reference and the warper
handle (fields in `__slots__` order, source lines 60-72).  The source
annotates `warper` as `Optional[Warper]` (line 57): the constructor always
installs a handle, but `setattr(self, "warper", None)` can clear it, so it
is an `Option` here too. -/
structure FaceEstimatorsCollection where
  _headPoseEstimator : Option Handle
  _eyeEstimator : Option Handle
  _gazeDirectionEstimator : Option Handle
  _mouthStateEstimator : Option Handle
  _warpQualityEstimator : Option Handle
  _basicAttributesEstimator : Option Handle
  _emotionsEstimator : Option Handle
  _faceEngine : VLFaceEngine
  _AGSEstimator : Option Handle
  warper : Option Handle
  _descriptorEstimator : Option Handle
deriving DecidableEq, Repr

/-- The `__slots__` tuple, in source order (lines 60-72). -/
def slotsList : List String :=
  ["_headPoseEstimator", "_eyeEstimator", "_gazeDirectionEstimator",
   "_mouthStateEstimator", "_warpQualityEstimator", "_basicAttributesEstimator",
   "_emotionsEstimator", "_faceEngine", "_AGSEstimator", "warper",
   "_descriptorEstimator"]

/-- Outcome of a call that may raise `ValueError`. -/
inductive PyResult where
  | ok
  | valueError (msg : String)
deriving DecidableEq, Repr

/-- Read the cached slot for a tag (the `self._xxxEstimator` attribute). -/
def slotOf : FaceEstimator → FaceEstimatorsCollection → Option Handle
  | .HeadPose, c => c._headPoseEstimator
  | .Eye, c => c._eyeEstimator
  | .Emotions, c => c._emotionsEstimator
  | .BasicAttributes, c => c._basicAttributesEstimator
  | .GazeDirection, c => c._gazeDirectionEstimator
  | .MouthState, c => c._mouthStateEstimator
  | .WarpQuality, c => c._warpQualityEstimator
  | .AGS, c => c._AGSEstimator
  | .Descriptor, c => c._descriptorEstimator

/-- Write the cached slot for a tag (assignment to `self._xxxEstimator`). -/
def setSlot (c : FaceEstimatorsCollection) : FaceEstimator → Option Handle → FaceEstimatorsCollection
  | .HeadPose, v => { c with _headPoseEstimator := v }
  | .Eye, v => { c with _eyeEstimator := v }
  | .Emotions, v => { c with _emotionsEstimator := v }
  | .BasicAttributes, v => { c with _basicAttributesEstimator := v }
  | .GazeDirection, v => { c with _gazeDirectionEstimator := v }
  | .MouthState, v => { c with _mouthStateEstimator := v }
  | .WarpQuality, v => { c with _warpQualityEstimator := v }
  | .AGS, v => { c with _AGSEstimator := v }
  | .Descriptor, v => { c with _descriptorEstimator := v }

/-- The engine factory method used for each tag, exactly as named in the
source (`initEstimator` branches, lines 152-169, and the nine property
getters). -/
def factoryName : FaceEstimator → String
  | .HeadPose => "createHeadPoseEstimator"
  | .Eye => "createEyeEstimator"
  | .Emotions => "createEmotionEstimator"
  | .BasicAttributes => "createBasicAttributesEstimator"
  | .GazeDirection => "createGazeEstimator"
  | .MouthState => "createMouthEstimator"
  | .WarpQuality => "createWarpQualityEstimator"
  | .AGS => "createAGSEstimator"
  | .Descriptor => "createFaceDescriptorEstimator"

/-- `FaceEstimatorsCollection._getEstimatorByAttributeName` (lines 104-121):
scan the enum members in order and return the first whose lowered name
equals the slice `attrName[1:-9]`; otherwise `ValueError("Bad attribute
name")`. -/
def getEstimatorByAttributeName (estimatorAttributeName : String) : Except String FaceEstimator :=
  match faceEstimatorMembers.find?
      (fun e => pyLower e.name == sliceEstimatorName estimatorAttributeName) with
  | some e => .ok e
  | none => .error "Bad attribute name"

/-- `FaceEstimatorsCollection._getAttributeNameByEstimator` (lines 123-141):
scan `__slots__` skipping `"_faceEngine"` and return the first name whose
slice `name[1:-9]` equals the lowered `estimator.name`; otherwise
`ValueError("Bad estimator")`. -/
def getAttributeNameByEstimator (estimator : TagArg) : Except String String :=
  match (slotsList.filter (fun n => n != "_faceEngine")).find?
      (fun n => pyLower estimator.name == sliceEstimatorName n) with
  | some n => .ok n
  | none => .error "Bad estimator"

/-- One branch body of `initEstimator`: `self._xxx = self._faceEngine.createXxx()`. -/
def initTag (c : FaceEstimatorsCollection) (tr : Trace) (t : FaceEstimator) :
    FaceEstimatorsCollection × Trace :=
  let p := callFactory tr c._faceEngine (factoryName t)
  (setSlot c t (some p.1), p.2)

/-- Pair a successful state update with the `ok` outcome. -/
def stepOk (p : FaceEstimatorsCollection × Trace) :
    FaceEstimatorsCollection × Trace × PyResult :=
  (p.1, p.2, .ok)

/-- `FaceEstimatorsCollection.initEstimator` (lines 143-171): an if/elif
chain of enum equality tests in source order, ending in
`ValueError("Bad estimator type")`. -/
def initEstimator (c : FaceEstimatorsCollection) (tr : Trace) (estimator : TagArg) :
    FaceEstimatorsCollection × Trace × PyResult :=
  if estimator = .tag .BasicAttributes then stepOk (initTag c tr .BasicAttributes)
  else if estimator = .tag .Eye then stepOk (initTag c tr .Eye)
  else if estimator = .tag .Emotions then stepOk (initTag c tr .Emotions)
  else if estimator = .tag .GazeDirection then stepOk (initTag c tr .GazeDirection)
  else if estimator = .tag .MouthState then stepOk (initTag c tr .MouthState)
  else if estimator = .tag .WarpQuality then stepOk (initTag c tr .WarpQuality)
  else if estimator = .tag .HeadPose then stepOk (initTag c tr .HeadPose)
  else if estimator = .tag .AGS then stepOk (initTag c tr .AGS)
  else if estimator = .tag .Descriptor then stepOk (initTag c tr .Descriptor)
  else (c, tr, .valueError "Bad estimator type")

/-- The lazy property getter for a tag (e.g. `headPoseEstimator`, lines
187-199; all nine getters have this identical shape): if the slot is
`None` create the estimator via the engine and cache it, then return the
slot's handle. -/
def getEstimator (c : FaceEstimatorsCollection) (tr : Trace) (t : FaceEstimator) :
    Handle × FaceEstimatorsCollection × Trace :=
  match slotOf t c with
  | some h => (h, c, tr)
  | none =>
    let p := callFactory tr c._faceEngine (factoryName t)
    (p.1, setSlot c t (some p.1), p.2)

/-- Whether a tag has a public property setter in the source: all tags
except `Descriptor` do (the `descriptorEstimator` property has no setter). -/
def hasSetter : FaceEstimator → Bool
  | .Descriptor => false
  | _ => true

/-- The property setter body for a tag with a setter (e.g. lines 201-209):
a bare assignment `self._xxxEstimator = newEstimator`, with no validation;
`newEstimator` may be any value, including `None`. -/
def setEstimator (c : FaceEstimatorsCollection) (t : FaceEstimator)
    (newEstimator : Option Handle) : FaceEstimatorsCollection :=
  setSlot c t newEstimator

/-- `setattr(self, estimatorName, v)` for an attribute name string (used
by `removeEstimator`): the nine estimator slots plus `"warper"`, which is
reachable from `removeEstimator` when the argument's name slices to the
empty string (the slice of `"warper"` is empty, so it matches);
`"_faceEngine"` is filtered out before lookup and never reaches this
point. -/
def setSlotByName (c : FaceEstimatorsCollection) (nm : String) (v : Option Handle) :
    FaceEstimatorsCollection :=
  if nm = "_headPoseEstimator" then { c with _headPoseEstimator := v }
  else if nm = "_eyeEstimator" then { c with _eyeEstimator := v }
  else if nm = "_gazeDirectionEstimator" then { c with _gazeDirectionEstimator := v }
  else if nm = "_mouthStateEstimator" then { c with _mouthStateEstimator := v }
  else if nm = "_warpQualityEstimator" then { c with _warpQualityEstimator := v }
  else if nm = "_basicAttributesEstimator" then { c with _basicAttributesEstimator := v }
  else if nm = "_emotionsEstimator" then { c with _emotionsEstimator := v }
  else if nm = "_AGSEstimator" then { c with _AGSEstimator := v }
  else if nm = "warper" then { c with warper := v }
  else if nm = "_descriptorEstimator" then { c with _descriptorEstimator := v }
  else c

/-- `FaceEstimatorsCollection.removeEstimator` (lines 407-415): resolve the
attribute name via `_getAttributeNameByEstimator` (which may raise) and set
that attribute to `None`. -/
def removeEstimator (c : FaceEstimatorsCollection) (estimator : TagArg) :
    FaceEstimatorsCollection × PyResult :=
  match getAttributeNameByEstimator estimator with
  | .error m => (c, .valueError m)
  | .ok nm => (setSlotByName c nm none, .ok)

/-- `getattr(self, estimatorName) is None` for the names visited by the
`faceEngine` setter loop (all attributes are `Option`s here; the
constructor always fills `warper`, so it is `None` only after the foreign
empty-name removal path). -/
def getattrIsNone (c : FaceEstimatorsCollection) (nm : String) : Bool :=
  if nm = "_headPoseEstimator" then c._headPoseEstimator.isNone
  else if nm = "_eyeEstimator" then c._eyeEstimator.isNone
  else if nm = "_gazeDirectionEstimator" then c._gazeDirectionEstimator.isNone
  else if nm = "_mouthStateEstimator" then c._mouthStateEstimator.isNone
  else if nm = "_warpQualityEstimator" then c._warpQualityEstimator.isNone
  else if nm = "_basicAttributesEstimator" then c._basicAttributesEstimator.isNone
  else if nm = "_emotionsEstimator" then c._emotionsEstimator.isNone
  else if nm = "_AGSEstimator" then c._AGSEstimator.isNone
  else if nm = "warper" then c.warper.isNone
  else if nm = "_descriptorEstimator" then c._descriptorEstimator.isNone
  else true

/-- The loop body of the `faceEngine` setter (lines 400-404): for each
`__slots__` name, skip `"_faceEngine"`, and when the attribute is not
`None` call `initEstimator(_getEstimatorByAttributeName(name))`; a
`ValueError` from the name lookup aborts the loop with the state mutated
so far (the resolved tag is always a genuine member, so `initEstimator`
itself succeeds). -/
def rebindLoop (c : FaceEstimatorsCollection) (tr : Trace) :
    List String → FaceEstimatorsCollection × Trace × PyResult
  | [] => (c, tr, .ok)
  | nm :: rest =>
    if nm = "_faceEngine" then rebindLoop c tr rest
    else if getattrIsNone c nm then rebindLoop c tr rest
    else
      match getEstimatorByAttributeName nm with
      | .error msg => (c, tr, .valueError msg)
      | .ok t =>
        let p := initTag c tr t
        rebindLoop p.1 p.2 rest

/-- The `faceEngine` property setter (lines 391-405): store the new engine,
run the re-initialization loop over `__slots__`, then (only if the loop
did not raise) re-create the warper via the new engine. -/
def setFaceEngine (c : FaceEstimatorsCollection) (tr : Trace)
    (newFaceEngine : VLFaceEngine) : FaceEstimatorsCollection × Trace × PyResult :=
  let c1 := { c with _faceEngine := newFaceEngine }
  match rebindLoop c1 tr slotsList with
  | (c2, tr2, .ok) =>
    let p := callFactory tr2 c2._faceEngine "createFaceWarper"
    ({ c2 with warper := some p.1 }, p.2, .ok)
  | (c2, tr2, .valueError m) => (c2, tr2, .valueError m)

/-- The constructor's start-estimators loop: `initEstimator` on each
element (each is a genuine member, so every call succeeds). -/
def initMany (c : FaceEstimatorsCollection) (tr : Trace) :
    List FaceEstimator → FaceEstimatorsCollection × Trace
  | [] => (c, tr)
  | t :: rest =>
    let p := initTag c tr t
    initMany p.1 p.2 rest

/-- The state after lines 84-98 of `__init__`: every slot `None`, the
engine stored, the warper handle installed. -/
def emptyCollection (faceEngine : VLFaceEngine) (w : Handle) : FaceEstimatorsCollection :=
  { _headPoseEstimator := none
    _eyeEstimator := none
    _gazeDirectionEstimator := none
    _mouthStateEstimator := none
    _warpQualityEstimator := none
    _basicAttributesEstimator := none
    _emotionsEstimator := none
    _faceEngine := faceEngine
    _AGSEstimator := none
    warper := some w
    _descriptorEstimator := none }

/-- `FaceEstimatorsCollection.__init__` (lines 74-102) with an explicitly
supplied engine (the `faceEngine is None` branch, which merely constructs
a default engine, is outside the claims): set every slot to `None`, create
the warper via the engine, then initialize each estimator of
`set(startEstimators)` — iteration over the Python set is modelled by
`List.dedup`, which visits each distinct tag exactly once (set iteration
order is unspecified and unobservable here). -/
def mkCollection (faceEngine : VLFaceEngine) (startEstimators : List FaceEstimator)
    (tr : Trace) : FaceEstimatorsCollection × Trace :=
  let p := callFactory tr faceEngine "createFaceWarper"
  initMany (emptyCollection faceEngine p.1) p.2 startEstimators.dedup

/-- A sample engine for concrete evaluations. -/
def engine1 : VLFaceEngine := ⟨1⟩

/-- A second, distinct sample engine. -/
def engine2 : VLFaceEngine := ⟨2⟩

/-- A freshly constructed registry over `engine1` with no start estimators. -/
def sample0 : FaceEstimatorsCollection × Trace := mkCollection engine1 [] []

/-- A registry over `engine1` whose descriptor slot was populated at
construction. -/
def sampleD : FaceEstimatorsCollection × Trace :=
  mkCollection engine1 [.Descriptor] []

/-- A registry over `engine1` whose eye slot was populated at
construction. -/
def sampleE : FaceEstimatorsCollection × Trace :=
  mkCollection engine1 [.Eye] []

/-- A caller-supplied handle unlike anything the sample engines produce. -/
def customHandle : Handle := ⟨7, "callerSupplied", 42⟩

theorem initEstimator_tag (c : FaceEstimatorsCollection) (tr : Trace) (t : FaceEstimator) :
    initEstimator c tr (.tag t) = stepOk (initTag c tr t) := by
  cases t <;> rfl

theorem slotOf_setSlot_self (c : FaceEstimatorsCollection) (v : Option Handle)
    (t : FaceEstimator) : slotOf t (setSlot c t v) = v := by
  cases t <;> rfl

theorem faceEngine_setSlot (c : FaceEstimatorsCollection) (v : Option Handle)
    (t : FaceEstimator) : (setSlot c t v)._faceEngine = c._faceEngine := by
  cases t <;> rfl

theorem slotOf_setSlot (c : FaceEstimatorsCollection) (v : Option Handle)
    (t u : FaceEstimator) : slotOf u (setSlot c t v) = if u = t then v else slotOf u c := by
  cases t <;> cases u <;> simp [slotOf, setSlot]

theorem slotOf_empty (e : VLFaceEngine) (w : Handle) (t : FaceEstimator) :
    slotOf t (emptyCollection e w) = none := by
  cases t <;> rfl

theorem factoryName_injOn : ∀ a b : FaceEstimator, factoryName a = factoryName b → a = b := by
  decide

theorem initMany_slot_isSome (l : List FaceEstimator) :
    ∀ (c : FaceEstimatorsCollection) (tr : Trace) (t : FaceEstimator),
    (slotOf t (initMany c tr l).1).isSome = (decide (t ∈ l) || (slotOf t c).isSome) := by
  induction l with
  | nil => intro c tr t; simp [initMany]
  | cons u rest ih =>
    intro c tr t
    simp only [initMany, initTag, callFactory]
    rw [ih, slotOf_setSlot]
    by_cases h : t = u
    · subst h; simp
    · simp [h]

theorem initMany_trace_map (l : List FaceEstimator) :
    ∀ (c : FaceEstimatorsCollection) (tr : Trace),
    ((initMany c tr l).2).map Handle.opName = tr.map Handle.opName ++ l.map factoryName := by
  induction l with
  | nil => intro c tr; simp [initMany]
  | cons u rest ih =>
    intro c tr
    simp only [initMany, initTag, callFactory]
    rw [ih]
    simp

theorem countP_map_factoryName (t : FaceEstimator) :
    ∀ l : List FaceEstimator, l.Nodup →
    (l.map factoryName).countP (fun s => s == factoryName t) = if t ∈ l then 1 else 0 := by
  intro l
  induction l with
  | nil => intro _; simp
  | cons u rest ih =>
    intro hnd
    rw [List.nodup_cons] at hnd
    by_cases h : t = u
    · subst h
      have h0 : (rest.map factoryName).countP (fun s => s == factoryName t) = 0 := by
        rw [ih hnd.2]
        simp [hnd.1]
      simp [List.countP_cons, h0]
    · have hne : (factoryName u == factoryName t) = false := by
        rw [beq_eq_false_iff_ne]
        intro heq
        exact h (factoryName_injOn u t heq).symm
      simp [List.countP_cons, ih hnd.2, hne, h]

/-- C1: refuted — assigning a new engine via the `faceEngine` setter never
completes: its loop over `__slots__` reaches the `"warper"` attribute
(skipped never, and never `None`), whose name resolves to no tag, so every
rebind raises `ValueError("Bad attribute name")` after replacing the
engine reference and before re-creating the warper.  Shown here on a
freshly constructed registry with every estimator slot empty. -/
theorem setFaceEngine_always_raises :
    (setFaceEngine sample0.1 sample0.2 engine2).2.2 = .valueError "Bad attribute name"
    ∧ (setFaceEngine sample0.1 sample0.2 engine2).1._faceEngine = engine2
    ∧ (setFaceEngine sample0.1 sample0.2 engine2).1.warper = sample0.1.warper := by
  decide

/-- C2: refuted — the two lookups are not a bijection over the nine tags:
`_getAttributeNameByEstimator` compares the lowercased enum name against
the camelCase attribute slice, so it raises `ValueError` for `HeadPose`
(and for `AGS`), and `_getEstimatorByAttributeName` likewise raises on
the stored attribute name `"_headPoseEstimator"`; only the all-lowercase
names (`Eye`, `Emotions`, `Descriptor`) round-trip. -/
theorem name_tag_lookup_not_bijective :
    getAttributeNameByEstimator (.tag .HeadPose) = .error "Bad estimator"
    ∧ getEstimatorByAttributeName "_headPoseEstimator" = .error "Bad attribute name"
    ∧ getAttributeNameByEstimator (.tag .AGS) = .error "Bad estimator"
    ∧ getAttributeNameByEstimator (.tag .Eye) = .ok "_eyeEstimator"
    ∧ getEstimatorByAttributeName "_eyeEstimator" = .ok .Eye := by
  decide

/-- C3: refuted — `removeEstimator` does not succeed for every tag: on
`FaceEstimator.HeadPose` the internal name lookup raises
`ValueError("Bad estimator")` and the state is left unchanged, instead of
the slot being cleared. -/
theorem removeEstimator_raises_on_headPose :
    removeEstimator sample0.1 (.tag .HeadPose) = (sample0.1, .valueError "Bad estimator") := by
  decide

/-- C4: refuted — the invariant is violated: build a registry on `engine1`
with the descriptor slot populated, then assign `engine2` to `faceEngine`;
the setter stores the new engine reference and then raises, leaving the
descriptor slot holding the handle produced by `engine1` (a stale handle
under the new engine reference). -/
theorem stale_handle_after_rebind :
    (setFaceEngine sampleD.1 sampleD.2 engine2).2.2 = .valueError "Bad attribute name"
    ∧ (setFaceEngine sampleD.1 sampleD.2 engine2).1._faceEngine = engine2
    ∧ (setFaceEngine sampleD.1 sampleD.2 engine2).1._descriptorEstimator
      = some ⟨engine1.id, "createFaceDescriptorEstimator", 1⟩
    ∧ engine1.id ≠ engine2.id := by
  decide

/-- C5: for every tag and every state, calling the lazy getter twice in a
row returns the identical triple (same handle, same state, same trace) the
second time, and the first call extends the trace by exactly one factory
call when the slot was empty and by none otherwise. -/
theorem getEstimator_idempotent (c : FaceEstimatorsCollection) (tr : Trace)
    (t : FaceEstimator) :
    getEstimator (getEstimator c tr t).2.1 (getEstimator c tr t).2.2 t = getEstimator c tr t
    ∧ (getEstimator c tr t).2.2
      = tr ++ (if slotOf t c = none
          then [⟨c._faceEngine.id, factoryName t, tr.length⟩] else []) := by
  cases hsl : slotOf t c with
  | some h => constructor <;> simp [getEstimator, hsl]
  | none =>
    constructor
    · simp [getEstimator, hsl, callFactory, slotOf_setSlot_self]
    · simp [getEstimator, hsl, callFactory]

/-- C6: for every tag and every state, calling `initEstimator` twice in a
row succeeds both times, performs two distinct factory invocations (the
trace grows by two distinct handles), and the second handle overwrites the
cached slot. -/
theorem initEstimator_twice (c : FaceEstimatorsCollection) (tr : Trace)
    (t : FaceEstimator) :
    (initEstimator c tr (.tag t)).2.2 = .ok
    ∧ (initEstimator (initEstimator c tr (.tag t)).1
        (initEstimator c tr (.tag t)).2.1 (.tag t)).2.2 = .ok
    ∧ (initEstimator c tr (.tag t)).2.1
      = tr ++ [⟨c._faceEngine.id, factoryName t, tr.length⟩]
    ∧ (initEstimator (initEstimator c tr (.tag t)).1
        (initEstimator c tr (.tag t)).2.1 (.tag t)).2.1
      = tr ++ [⟨c._faceEngine.id, factoryName t, tr.length⟩,
               ⟨c._faceEngine.id, factoryName t, tr.length + 1⟩]
    ∧ slotOf t (initEstimator (initEstimator c tr (.tag t)).1
        (initEstimator c tr (.tag t)).2.1 (.tag t)).1
      = some ⟨c._faceEngine.id, factoryName t, tr.length + 1⟩
    ∧ (⟨c._faceEngine.id, factoryName t, tr.length⟩ : Handle)
      ≠ ⟨c._faceEngine.id, factoryName t, tr.length + 1⟩ := by
  simp [initEstimator_tag, stepOk, initTag, callFactory, slotOf_setSlot_self,
    faceEngine_setSlot]

/-- C7: for every tag that has a public setter, installing a caller
handle `h` through the setter and then reading the lazy getter returns
exactly `h`, with the state and trace untouched (no factory call). -/
theorem setEstimator_then_get (c : FaceEstimatorsCollection) (tr : Trace)
    (t : FaceEstimator) (h : Handle) (hs : hasSetter t = true) :
    getEstimator (setEstimator c t (some h)) tr t
      = (h, setEstimator c t (some h), tr) := by
  simp [getEstimator, setEstimator, slotOf_setSlot_self]

/-- Witness for C7 at `HeadPose` with a concrete caller-supplied handle. -/
theorem setEstimator_then_get_witness :
    hasSetter .HeadPose = true
    ∧ getEstimator (setEstimator sample0.1 .HeadPose (some customHandle)) [] .HeadPose
      = (customHandle, setEstimator sample0.1 .HeadPose (some customHandle), []) :=
  ⟨rfl, setEstimator_then_get sample0.1 [] .HeadPose customHandle rfl⟩

/-- C8 counterexample: the claim as stated is false.  `removeEstimator`
applied to a value outside the enumeration whose `name` attribute is
`"Eye"` (e.g. a member of a different enum) raises no error — it returns
success and clears the populated eye slot; and one whose `name` is the
empty string matches the empty slice of `"warper"` and clears the warper
attribute.  So an out-of-enumeration value need not raise `ValueError`,
and the state need not be left unchanged. -/
theorem removeEstimator_foreign_not_atomic :
    removeEstimator sampleE.1 (.foreign "Eye")
      = ({ sampleE.1 with _eyeEstimator := none }, .ok)
    ∧ sampleE.1._eyeEstimator = some ⟨engine1.id, "createEyeEstimator", 1⟩
    ∧ removeEstimator sample0.1 (.foreign "")
      = ({ sample0.1 with warper := none }, .ok)
    ∧ sample0.1.warper ≠ none := by
  decide

/-- C8 (amended): for every value outside the nine-member enumeration —
modelled as a `TagArg.foreign` value carrying a `name` attribute —
`initEstimator` raises `ValueError("Bad estimator type")` and returns the
state (all slots, warper and engine reference) unchanged; and whenever the
value's lowercased name additionally matches no slot-name slice,
`removeEstimator` raises `ValueError("Bad estimator")` with the state
unchanged as well.  (Without that proviso the removal half fails: see the
counterexample, where a foreign value named `"Eye"` silently clears the
eye slot.) -/
theorem foreignTag_error_atomic (c : FaceEstimatorsCollection) (tr : Trace) (nm : String) :
    initEstimator c tr (.foreign nm) = (c, tr, .valueError "Bad estimator type")
    ∧ (((slotsList.filter (fun n => n != "_faceEngine")).all
        (fun n => !(pyLower nm == sliceEstimatorName n))) = true →
      removeEstimator c (.foreign nm) = (c, .valueError "Bad estimator")) := by
  constructor
  · rfl
  · intro hnm
    have hfind : (slotsList.filter (fun n => n != "_faceEngine")).find?
        (fun n => pyLower (TagArg.name (.foreign nm)) == sliceEstimatorName n) = none := by
      rw [List.find?_eq_none]
      intro x hx
      have hx2 := List.all_eq_true.mp hnm x hx
      simpa using hx2
    simp [removeEstimator, getAttributeNameByEstimator, hfind]

/-- Witness for C8 at the concrete out-of-range value named `"NotATag"`,
whose lowered name matches no slot-name slice. -/
theorem foreignTag_error_atomic_witness :
    initEstimator sample0.1 [] (.foreign "NotATag")
      = (sample0.1, [], .valueError "Bad estimator type")
    ∧ ((slotsList.filter (fun n => n != "_faceEngine")).all
        (fun n => !(pyLower "NotATag" == sliceEstimatorName n))) = true
    ∧ removeEstimator sample0.1 (.foreign "NotATag")
      = (sample0.1, .valueError "Bad estimator") :=
  ⟨(foreignTag_error_atomic sample0.1 [] "NotATag").1, by decide,
   (foreignTag_error_atomic sample0.1 [] "NotATag").2 (by decide)⟩

/-- C9: for every start-list (duplicates allowed), construction populates
exactly the slots of the listed tags, invokes the per-tag factory exactly
once per distinct listed tag (and zero times for unlisted tags), and
creates the warper exactly once. -/
theorem mkCollection_distinct_init (e : VLFaceEngine) (sl : List FaceEstimator)
    (t : FaceEstimator) :
    ((slotOf t (mkCollection e sl []).1).isSome ↔ t ∈ sl)
    ∧ ((mkCollection e sl []).2.map Handle.opName).countP (fun s => s == factoryName t)
      = (if t ∈ sl then 1 else 0)
    ∧ ((mkCollection e sl []).2.map Handle.opName).countP
        (fun s => s == "createFaceWarper") = 1 := by
  have hwne : ∀ u : FaceEstimator, ("createFaceWarper" == factoryName u) = false := by decide
  have hmap : (mkCollection e sl []).2.map Handle.opName
      = "createFaceWarper" :: sl.dedup.map factoryName := by
    simp [mkCollection, callFactory, initMany_trace_map]
  refine ⟨?_, ?_, ?_⟩
  · have hslot := initMany_slot_isSome sl.dedup
      (emptyCollection e ⟨e.id, "createFaceWarper", 0⟩)
      [⟨e.id, "createFaceWarper", 0⟩] t
    have hm : (mkCollection e sl []).1
        = (initMany (emptyCollection e ⟨e.id, "createFaceWarper", 0⟩)
            [⟨e.id, "createFaceWarper", 0⟩] sl.dedup).1 := by
      simp [mkCollection, callFactory]
    rw [hm, hslot, slotOf_empty]
    simp [List.mem_dedup]
  · rw [hmap, List.countP_cons]
    have hwt : (("createFaceWarper" : String) == factoryName t) = false := hwne t
    rw [countP_map_factoryName t sl.dedup sl.nodup_dedup]
    simp [hwt, List.mem_dedup]
  · rw [hmap, List.countP_cons]
    have h0 : (sl.dedup.map factoryName).countP (fun s => s == "createFaceWarper") = 0 := by
      rw [List.countP_eq_zero]
      intro s hs
      rw [List.mem_map] at hs
      obtain ⟨u, _, rfl⟩ := hs
      intro hbeq
      have hequ : factoryName u = "createFaceWarper" := eq_of_beq hbeq
      have hf := hwne u
      rw [hequ] at hf
      exact absurd hf (by decide)
    simp [h0]

/-- C10: for every tag with a public setter, assigning `None` through the
setter is accepted and clears the slot; the next lazy get then performs
exactly one factory call against the current engine and caches the fresh
handle. -/
theorem setEstimator_none_clears (c : FaceEstimatorsCollection) (tr : Trace)
    (t : FaceEstimator) (hs : hasSetter t = true) :
    slotOf t (setEstimator c t none) = none
    ∧ getEstimator (setEstimator c t none) tr t
      = (⟨c._faceEngine.id, factoryName t, tr.length⟩,
         setSlot (setEstimator c t none) t
           (some ⟨c._faceEngine.id, factoryName t, tr.length⟩),
         tr ++ [⟨c._faceEngine.id, factoryName t, tr.length⟩]) := by
  constructor
  · simp [setEstimator, slotOf_setSlot_self]
  · simp [getEstimator, setEstimator, slotOf_setSlot_self, callFactory, faceEngine_setSlot]

/-- Witness for C10 at `AGS` on the sample registry. -/
theorem setEstimator_none_clears_witness :
    hasSetter .AGS = true
    ∧ slotOf .AGS (setEstimator sample0.1 .AGS none) = none
    ∧ getEstimator (setEstimator sample0.1 .AGS none) [] .AGS
      = (⟨sample0.1._faceEngine.id, factoryName .AGS, 0⟩,
         setSlot (setEstimator sample0.1 .AGS none) .AGS
           (some ⟨sample0.1._faceEngine.id, factoryName .AGS, 0⟩),
         [⟨sample0.1._faceEngine.id, factoryName .AGS, 0⟩]) :=
  ⟨rfl, (setEstimator_none_clears sample0.1 [] .AGS rfl).1,
   (setEstimator_none_clears sample0.1 [] .AGS rfl).2⟩
